import Mathlib

/-!
Verification of the weather-application script (`src/weatherapp.py`) against its
natural-language specification.

Modelling conventions (shallow embedding of the Python source):
* Parsed JSON values are modelled by the inductive type `Json`.  JSON numbers are
  represented by their decimal content (`jint` for integer tokens, `jdec m e` for the
  float value `m / 10 ^ e`); binary floating-point subtleties are out of scope, and the
  rendering functions below reproduce Python's `str` on such decimal values.
* Python exceptions are modelled by `Except String α`: `Except.error msg` stands for a
  raised exception whose `str` is `msg`.
* The outcome of external effects (the HTTP round-trip of `requests.get` +
  `raise_for_status` + `.json()`, the construction of the `ChatGoogleGenerativeAI`
  client, and `llm.invoke(...).content`) is passed in as an explicit oracle argument.
-/

set_option linter.unusedVariables false

namespace WeatherApp

/-- A parsed Python/JSON value, as produced by `r.json()`. -/
inductive Json where
  | jnull : Json
  | jbool : Bool → Json
  | jint : Int → Json
  | jdec : Int → Nat → Json
  | jstr : String → Json
  | jarr : List Json → Json
  | jobj : List (String × Json) → Json

/-- Python `str` of the float `m / 10 ^ e` (e.g. `decRender 225 1 = "22.5"`,
`decRender 210 1 = "21.0"`); an integer-valued float still prints a trailing `.0`. -/
def decRender (m : Int) (e : Nat) : String :=
  let sign := if m < 0 then "-" else ""
  let a := m.natAbs
  let ip := a / 10 ^ e
  let fp := a % 10 ^ e
  let fpDigits := toString fp
  let fpStr := String.mk (List.replicate (e - fpDigits.length) '0') ++ fpDigits
  if e = 0 then sign ++ toString ip ++ ".0" else sign ++ toString ip ++ "." ++ fpStr

mutual
/-- Python `repr` of a parsed value (used for elements inside containers). -/
def pyRepr : Json → String
  | Json.jnull => "None"
  | Json.jbool b => if b then "True" else "False"
  | Json.jint n => toString n
  | Json.jdec m e => decRender m e
  | Json.jstr s => "\x27" ++ s ++ "\x27"
  | Json.jarr xs => "[" ++ pyReprList xs ++ "]"
  | Json.jobj fs => "\x7b" ++ pyReprFields fs ++ "\x7d"

/-- Comma-separated `repr`s of list elements. -/
def pyReprList : List Json → String
  | [] => ""
  | [x] => pyRepr x
  | x :: y :: rest => pyRepr x ++ ", " ++ pyReprList (y :: rest)

/-- Comma-separated `'key': repr(value)` pairs of a dict. -/
def pyReprFields : List (String × Json) → String
  | [] => ""
  | [(k, v)] => "\x27" ++ k ++ "\x27: " ++ pyRepr v
  | (k, v) :: p :: rest => "\x27" ++ k ++ "\x27: " ++ pyRepr v ++ ", " ++ pyReprFields (p :: rest)
end

/-- Python `str` of a parsed value, as interpolated by an f-string. -/
def pyStr : Json → String
  | Json.jstr s => s
  | j => pyRepr j

/-- Python truthiness of a parsed value. -/
def pyTruthy : Json → Bool
  | Json.jnull => false
  | Json.jbool b => b
  | Json.jint n => n != 0
  | Json.jdec m _ => m != 0
  | Json.jstr s => s != ""
  | Json.jarr xs => !xs.isEmpty
  | Json.jobj fs => !fs.isEmpty

/-- Whether a (nonempty) pattern occurs as a substring, via `String.splitOn`. -/
def substrB (pat s : String) : Bool := (s.splitOn pat).length ≥ 2

/-- Python `k in j`: key membership for dicts, element membership for lists,
substring test for strings; raises `TypeError` on non-iterable values. -/
def pyIn (k : String) : Json → Except String Bool
  | Json.jobj fs => Except.ok (fs.any (fun f => f.1 == k))
  | Json.jarr xs => Except.ok (xs.any (fun x => match x with | Json.jstr s => s == k | _ => false))
  | Json.jstr s => Except.ok (substrB k s)
  | _ => Except.error "argument of type is not iterable"

/-- Python `j[k]`: dict lookup raising `KeyError` when absent, `TypeError` on non-dicts. -/
def pyGet (j : Json) (k : String) : Except String Json :=
  match j with
  | Json.jobj fs =>
    match fs.find? (fun f => f.1 == k) with
    | some kv => Except.ok kv.2
    | none => Except.error ("KeyError: " ++ k)
  | _ => Except.error ("TypeError: value is not subscriptable with " ++ k)

/-- Python `j.get(k)` (default `None`): `AttributeError` on non-dicts. -/
def pyDictGet (j : Json) (k : String) : Except String (Option Json) :=
  match j with
  | Json.jobj fs => Except.ok ((fs.find? (fun f => f.1 == k)).map (fun f => f.2))
  | _ => Except.error ("AttributeError: object has no attribute get")

/-- Python `j.get(k, d)`. -/
def pyGetDefault (j : Json) (k : String) (d : Json) : Except String Json :=
  (pyDictGet j k).map (fun o => o.getD d)

/-- Whether a dict value has key `k` (`false` on non-dicts). -/
def objHasKey (j : Json) (k : String) : Bool :=
  match j with
  | Json.jobj fs => fs.any (fun f => f.1 == k)
  | _ => false

/-- `weatherapp.py` lines 67-76, `fetch_weather(city, api_key)`.

The `response` oracle is the combined outcome of the `requests.get` call,
`raise_for_status()` and `r.json()` inside the `try` block: `Except.ok data` when a
parsed payload `data` was obtained, `Except.error e` when any of them raised an
exception with `str` equal to `e`.  The function then returns
`data if "current" in data and "location" in data else None`, and any exception in the
`try` block (including a `TypeError` from the membership tests) yields
`{"error": str(e)}`. -/
def fetch_weather (response : Except String Json) : Option Json :=
  match response with
  | Except.error e => some (Json.jobj [("error", Json.jstr e)])
  | Except.ok data =>
    match pyIn "current" data with
    | Except.error e => some (Json.jobj [("error", Json.jstr e)])
    | Except.ok hc =>
      match pyIn "location" data with
      | Except.error e => some (Json.jobj [("error", Json.jstr e)])
      | Except.ok hl =>
        if hc && hl then some data else none

/-- Whether a result value is a dict whose only field is `error`. -/
def isErrorOnlyDict : Json → Bool
  | Json.jobj [(k, _)] => k == "error"
  | _ => false

/-- Whether an optional result is an error-only dict (a `WeatherResult` with only the
error field set). -/
def isErrorOnlyResult : Option Json → Bool
  | some j => isErrorOnlyDict j
  | none => false

/-- The spec's `WeatherResult` invariant, as a checker on `fetch_weather`'s return
value: exactly one of the success shape (`location`/`current` populated) or the error
field is populated — never both and never neither. -/
def exactlyOneShape : Option Json → Bool
  | none => false
  | some j => ((objHasKey j "current" && objHasKey j "location") != isErrorOnlyDict j)
              && (objHasKey j "current" && objHasKey j "location" || isErrorOnlyDict j)

/-- `weatherapp.py` lines 78-86, `build_weather_summary(data)`.  Lookups happen in the
source's evaluation order (`data["location"]`, `data["current"]`,
`cur["condition"]["text"]`, then the f-string fields left to right); a missing key
raises `KeyError`, modelled as `Except.error`. -/
def build_weather_summary (data : Json) : Except String String := do
  let loc ← pyGet data "location"
  let cur ← pyGet data "current"
  let condObj ← pyGet cur "condition"
  let cond ← pyGet condObj "text"
  let nm ← pyGet loc "name"
  let ct ← pyGet loc "country"
  let t ← pyGet cur "temp_c"
  let fl ← pyGet cur "feelslike_c"
  let w ← pyGet cur "wind_kph"
  let h ← pyGet cur "humidity"
  pure ("Location: " ++ pyStr nm ++ ", " ++ pyStr ct ++ ". Condition: " ++ pyStr cond ++
        ". Temp: " ++ pyStr t ++ "°C (feels " ++ pyStr fl ++ "°C). Wind: " ++ pyStr w ++
        " kph. Humidity: " ++ pyStr h ++ "%.")

/-- The fixed message returned when the Gemini client library is unavailable
(`weatherapp.py` line 90). -/
def geminiUnavailableMsg : String :=
  "⚠️ Gemini package not installed. Run: `pip install langchain-google-genai`"

/-- The prompt built by `get_attractions_md` (`weatherapp.py` lines 97-105). -/
def mkPrompt (city weather_summary : String) : String :=
  "You are a concise local guide.\n" ++
  "City: " ++ city ++ "\n" ++
  "Weather now: " ++ weather_summary ++ "\n\n" ++
  "Task: List 10 top attractions in " ++ city ++ ". " ++
  "For each, provide <= 20 words and say if it\x27s ideal given the weather " ++
  "(e.g., \x27great in sunshine\x27, \x27indoor-friendly today\x27). " ++
  "Return a Markdown bullet list with **bold** attraction names."

/-- `weatherapp.py` lines 88-109, `get_attractions_md(city, weather_summary, google_key)`.

Oracles: `llm_available` is the module-level `LLM_AVAILABLE` flag; `construct` is the
outcome of `ChatGoogleGenerativeAI(model=..., temperature=0.2, google_api_key=...)` —
note that in the source this constructor call sits OUTSIDE the `try` block, so an
exception it raises propagates to the caller (modelled by returning `Except.error`);
`invokeContent` maps the prompt to the outcome of `llm.invoke(prompt).content`, where
`Except.ok none` models a falsy content (`None` or an empty string is handled by the
`or "No response."`) and `Except.error e` models a raised exception, which the source
catches and converts to an error string. -/
def get_attractions_md (llm_available : Bool) (construct : Except String Unit)
    (invokeContent : String → Except String (Option String))
    (city weather_summary google_key : String) : Except String String :=
  if !llm_available then
    Except.ok geminiUnavailableMsg
  else
    match construct with
    | Except.error e => Except.error e
    | Except.ok _ =>
      match invokeContent (mkPrompt city weather_summary) with
      | Except.error e => Except.ok ("⚠️ Gemini call failed: " ++ e)
      | Except.ok content =>
        Except.ok (match content with
          | none => "No response."
          | some s => if s == "" then "No response." else s)

/-- Python `str.strip()` whitespace test on the characters the source can meet
(ASCII whitespace, matching `str.isspace` on them). -/
def pyIsSpace (c : Char) : Bool :=
  c == ' ' || c == '\t' || c == '\n' || c == '\r' || c == '\x0b' || c == '\x0c'

/-- Python `s.strip()`: drop leading and trailing whitespace. -/
def pyStrip (s : String) : String :=
  String.mk (((s.toList.dropWhile pyIsSpace).reverse.dropWhile pyIsSpace).reverse)

/-- Round-half-even of `a / d` for `d > 0` (Python float formatting rounding). -/
def rdivHalfEven (a d : Int) : Int :=
  let q := Int.ediv a d
  let r := Int.emod a d
  if 2 * r < d then q
  else if d < 2 * r then q + 1
  else if Int.emod q 2 = 0 then q else q + 1

/-- Python `f"{x:.1f}"`: one-decimal fixed formatting; raises on non-numeric values. -/
def fmtFixed1 : Json → Except String String
  | Json.jint n => Except.ok (toString n ++ ".0")
  | Json.jdec m e =>
    if e ≤ 1 then Except.ok (decRender (m * (10 : Int) ^ (1 - e)) 1)
    else Except.ok (decRender (rdivHalfEven m ((10 : Int) ^ (e - 1))) 1)
  | Json.jbool b => Except.ok (if b then "1.0" else "0.0")
  | _ => Except.error "ValueError: unsupported format string"

/-- Python `int(x)`: truncation for numbers, parsing for strings. -/
def pyIntOf : Json → Except String Int
  | Json.jint n => Except.ok n
  | Json.jdec m e => Except.ok (Int.tdiv m ((10 : Int) ^ e))
  | Json.jbool b => Except.ok (if b then 1 else 0)
  | Json.jstr s =>
    let t := pyStrip s
    let (sign, digits) :=
      if t.startsWith "-" then ((-1 : Int), t.drop 1)
      else if t.startsWith "+" then (1, t.drop 1) else (1, t)
    if digits.length > 0 && digits.toList.all Char.isDigit then
      Except.ok (sign * Int.ofNat digits.toNat!)
    else Except.error ("ValueError: invalid literal for int: " ++ s)
  | _ => Except.error "TypeError: int argument"

/-- The `c4.metric` pressure string, `f"{cur.get('pressure_mb', '—')} mb"`
(`weatherapp.py` line 175). -/
def pressureMetric (cur : Json) : Except String String := do
  let p ← pyGetDefault cur "pressure_mb" (Json.jstr "—")
  pure (pyStr p ++ " mb")

/-- The `tab_weather` details line (`weatherapp.py` lines 182-185): absent optional
fields render as the `—` marker via `dict.get` defaults. -/
def detailsLine (cur : Json) : Except String String := do
  let cl ← pyGetDefault cur "cloud" (Json.jstr "—")
  let uv ← pyGetDefault cur "uv" (Json.jstr "—")
  let vis ← pyGetDefault cur "vis_km" (Json.jstr "—")
  let wd ← pyGetDefault cur "wind_dir" (Json.jstr "—")
  pure ("**Cloud**: " ++ pyStr cl ++ "%  |  **UV**: " ++ pyStr uv ++
        "  |  **Visibility**: " ++ pyStr vis ++ " km  |  **Wind dir**: " ++ pyStr wd)

/-- How one run of the action block ends: a graceful `st.error` + `st.stop`, an
uncaught exception (Streamlit shows a traceback and the script halts), or completion. -/
inductive Halt where
  | errorStop : String → Halt
  | crash : String → Halt
  | completed : Halt
deriving DecidableEq

/-- Observable trace of one run of the action block: its outcome, and which of the
pipeline steps were reached (the weather fetch, `build_weather_summary`, and
`get_attractions_md`). -/
structure ActionResult where
  outcome : Halt
  fetchAttempted : Bool
  summaryInvoked : Bool
  advisoryInvoked : Bool
deriving DecidableEq

/-- The rendering performed after the fetch succeeds and before the attractions tab
(`weatherapp.py` lines 153-186): `cur = data["current"]`, `loc = data["location"]`, the
weather card's f-string fields in order, the four metrics, and the `tab_weather` body.
Returns `(cur, loc)` on success; `Except.error` models an uncaught exception. -/
def renderBeforeTabs (data : Json) : Except String (Json × Json) := do
  let cur ← pyGet data "current"
  let loc ← pyGet data "location"
  let condObj1 ← pyGet cur "condition"
  let _icon ← pyGet condObj1 "icon"
  let condObj2 ← pyGet cur "condition"
  let _text ← pyGet condObj2 "text"
  let _name ← pyGet loc "name"
  let _country ← pyGet loc "country"
  let _localtime ← pyGet loc "localtime"
  let t ← pyGet cur "temp_c"
  let _ ← fmtFixed1 t
  let fl ← pyGet cur "feelslike_c"
  let _ ← fmtFixed1 fl
  let _hum ← pyGet cur "humidity"
  let _wind ← pyGet cur "wind_kph"
  let _pressure ← pressureMetric cur
  let _details ← detailsLine cur
  let hv ← pyGetDefault cur "humidity" (Json.jint 0)
  let hi ← pyIntOf hv
  if min 100 hi < 0 then Except.error "StreamlitAPIException: progress value" else pure ()
  pure (cur, loc)

/-- The success path of the action block after the fetch-failure check
(`weatherapp.py` lines 153-201): card and metrics, `tab_weather`, then
`tab_attractions` (`build_weather_summary` followed by `get_attractions_md`), then
`tab_map` (`loc["lat"]`, `loc["lon"]`). -/
def run_success (google_key city : String) (avail : Bool) (construct : Except String Unit)
    (invokeContent : String → Except String (Option String)) (data : Json) : ActionResult :=
  match renderBeforeTabs data with
  | Except.error e => ⟨Halt.crash e, true, false, false⟩
  | Except.ok (_cur, loc) =>
    match build_weather_summary data with
    | Except.error e => ⟨Halt.crash e, true, true, false⟩
    | Except.ok ws =>
      match get_attractions_md avail construct invokeContent city ws google_key with
      | Except.error e => ⟨Halt.crash e, true, true, true⟩
      | Except.ok _md =>
        match pyGet loc "lat" with
        | Except.error e => ⟨Halt.crash e, true, true, true⟩
        | Except.ok _ =>
          match pyGet loc "lon" with
          | Except.error e => ⟨Halt.crash e, true, true, true⟩
          | Except.ok _ => ⟨Halt.completed, true, true, true⟩

/-- The action block (`weatherapp.py` lines 136-201) for one button press, with a cold
cache (so `data = fetch_weather(city, weather_key)` is driven by the `response`
oracle).  Credential checks come first: `google_key.strip()` then
`weather_key.strip()`.  The fetch-failure check is `if not data or data.get("error")`;
note that when `data` is `None` the message f-string still evaluates
`data.get(...)`, which raises `AttributeError` on `None` — a crash, not a graceful
stop. -/
def run_action (google_key weather_key city : String)
    (response : Except String Json)
    (avail : Bool) (construct : Except String Unit)
    (invokeContent : String → Except String (Option String)) : ActionResult :=
  if pyStrip google_key = "" then
    ⟨Halt.errorStop "Please enter your Google Gemini API key.", false, false, false⟩
  else if pyStrip weather_key = "" then
    ⟨Halt.errorStop "Please enter your WeatherAPI key.", false, false, false⟩
  else
    match fetch_weather response with
    | none => ⟨Halt.crash "AttributeError: NoneType object has no attribute get", true, false, false⟩
    | some j =>
      if !pyTruthy j then
        match pyGetDefault j "error" (Json.jstr "Check city or API key.") with
        | Except.error e => ⟨Halt.crash e, true, false, false⟩
        | Except.ok v =>
          ⟨Halt.errorStop ("Could not fetch weather. " ++ pyStr v), true, false, false⟩
      else
        match pyDictGet j "error" with
        | Except.error e => ⟨Halt.crash e, true, false, false⟩
        | Except.ok errv =>
          if (match errv with | none => false | some ev => pyTruthy ev) then
            ⟨Halt.errorStop ("Could not fetch weather. " ++
              pyStr (errv.getD (Json.jstr "Check city or API key."))), true, false, false⟩
          else
            run_success google_key city avail construct invokeContent j

/-- Modelled from the spec: the TTL of `st.cache_data(ttl=300)` on `fetch_weather`
(spec §4.2: an entry is live while it is at most 300 seconds old). -/
def CACHE_TTL : Nat := 300

/-- Modelled from the spec: a cache entry of the `st.cache_data` memoization layer,
keyed by the argument pair `(city, api_key)` (spec §3 `CacheEntry`). -/
structure CacheEntry where
  city : String
  key : String
  value : Option Json
  storedAt : Nat

/-- Modelled from the spec: cache lookup — a stored value is returned only while the
entry is unexpired (≤ `CACHE_TTL` seconds old, spec §4.2). -/
def cacheLookup (entries : List CacheEntry) (now : Nat) (city key : String) :
    Option (Option Json) :=
  match entries.find? (fun e => e.city == city && e.key == key) with
  | some e => if now - e.storedAt ≤ CACHE_TTL then some e.value else none
  | none => none

/-- Modelled from the spec: `getOrFetch` — the behaviour `st.cache_data(ttl=300)` wraps
around `fetch_weather` (spec §4.2): return a live entry without invoking the fetch
function; otherwise invoke it, store the result (error results included) and return
it.  The third component reports whether the fetch function was invoked. -/
def getOrFetch (entries : List CacheEntry) (now : Nat) (city key : String)
    (fn : String → String → Option Json) : Option Json × List CacheEntry × Bool :=
  match cacheLookup entries now city key with
  | some v => (v, entries, false)
  | none =>
    let v := fn city key
    (v, ⟨city, key, v, now⟩ :: entries, true)

/-- Whether an `Except` value is a normal return (`Except.ok`), i.e. no exception
escaped. -/
def exceptIsOk {ε α : Type} : Except ε α → Bool
  | Except.ok _ => true
  | Except.error _ => false

/-- A payload of the shape the summary template consumes: `location` with `name` and
`country`, `current` with `condition.text`, `temp_c`, `feelslike_c`, `wind_kph`,
`humidity`. -/
def mkWeatherPayload (nm ct cond t fl w h : Json) : Json :=
  Json.jobj [
    ("location", Json.jobj [("name", nm), ("country", ct)]),
    ("current", Json.jobj [
      ("condition", Json.jobj [("text", cond)]),
      ("temp_c", t), ("feelslike_c", fl), ("wind_kph", w), ("humidity", h)])]

/-- The concrete payload of spec §8: Paris/France, Sunny, 22.5 °C feeling like
21.0 °C, wind 10 kph, humidity 40 %. -/
def parisPayload : Json :=
  mkWeatherPayload (Json.jstr "Paris") (Json.jstr "France") (Json.jstr "Sunny")
    (Json.jdec 225 1) (Json.jdec 210 1) (Json.jint 10) (Json.jint 40)

/-- A `current` object with none of the optional fields (`pressure_mb`, `cloud`, `uv`,
`vis_km`, `wind_dir`). -/
def currentNoOptional : Json :=
  Json.jobj [("condition", Json.jobj [("text", Json.jstr "Sunny")]),
             ("temp_c", Json.jdec 225 1)]

/-- A successful provider payload whose `current` object lacks every optional field. -/
def payloadNoOptional : Json :=
  Json.jobj [("location", Json.jobj [("name", Json.jstr "Paris")]),
             ("current", currentNoOptional)]

/-! ## Helper lemmas -/

/-- On an `Except.ok` dict payload, `fetch_weather` reduces to the key test. -/
theorem fetch_weather_obj (fs : List (String × Json)) :
    fetch_weather (Except.ok (Json.jobj fs)) =
      if objHasKey (Json.jobj fs) "current" && objHasKey (Json.jobj fs) "location"
      then some (Json.jobj fs) else none := rfl

/-- `find?` misses when `any` is false. -/
theorem find_none_of_any_false (fs : List (String × Json)) (k : String)
    (h : fs.any (fun f => f.1 == k) = false) :
    fs.find? (fun f => f.1 == k) = none := by
  induction fs with
  | nil => rfl
  | cons hd tl ih =>
    simp only [List.any_cons, Bool.or_eq_false_iff] at h
    rw [List.find?_cons_of_neg _ (by simp [h.1]), ih h.2]

/-- `dropWhile` consumes a list all of whose elements satisfy the predicate. -/
theorem dropWhile_all_eq_nil (p : Char → Bool) (l : List Char) (h : l.all p = true) :
    l.dropWhile p = [] := by
  induction l with
  | nil => rfl
  | cons hd tl ih =>
    simp only [List.all_cons, Bool.and_eq_true] at h
    rw [List.dropWhile_cons_of_pos h.1, ih h.2]

/-- A string made only of whitespace strips to the empty string. -/
theorem pyStrip_all_space (s : String) (h : s.toList.all pyIsSpace = true) :
    pyStrip s = "" := by
  unfold pyStrip
  rw [dropWhile_all_eq_nil _ _ h]
  rfl

/-! ## Claims -/

/-- Claim C1, counterexample: for the parsed payload `{"location": null}` — which
lacks the `current` key — `fetch_weather` returns `None`, not a `WeatherResult` with
only the error field set, so the claim as stated fails. -/
theorem c1_counterexample :
    fetch_weather (Except.ok (Json.jobj [("location", Json.jnull)])) = none ∧
    isErrorOnlyResult
      (fetch_weather (Except.ok (Json.jobj [("location", Json.jnull)]))) = false :=
  ⟨rfl, rfl⟩

/-- Claim C1 (amended): for every parsed dict payload that lacks the `current` key (or
the `location` key), `fetch_weather` returns `None` — no partially populated success
object and no raised exception, but also no error-field result. -/
theorem c1_missing_key_yields_none (fs : List (String × Json))
    (h : objHasKey (Json.jobj fs) "current" = false ∨
         objHasKey (Json.jobj fs) "location" = false) :
    fetch_weather (Except.ok (Json.jobj fs)) = none := by
  rw [fetch_weather_obj]
  rcases h with h | h <;> simp [h]

/-- Claim C1, witness: the empty payload lacks `current`, and `fetch_weather` returns
`none` on it. -/
theorem c1_missing_key_yields_none_witness :
    fetch_weather (Except.ok (Json.jobj [])) = none :=
  c1_missing_key_yields_none [] (Or.inl rfl)

/-- Claim C4, counterexample: on the parsed payload `{"foo": null}` (a non-exceptional
response missing the required keys) `fetch_weather` returns `None`, in which neither
the success fields nor the error field is populated — the "never neither" half of the
invariant fails. -/
theorem c4_counterexample :
    exactlyOneShape (fetch_weather (Except.ok (Json.jobj [("foo", Json.jnull)]))) = false :=
  rfl

/-- Claim C4 (amended): for every dict-or-exception response, `fetch_weather` returns
either `None` (required keys missing), or the payload verbatim containing both
`current` and `location`, or a dict whose only field is `error`. -/
theorem c4_result_shape (response : Except String Json)
    (h : (∃ e, response = Except.error e) ∨ (∃ fs, response = Except.ok (Json.jobj fs))) :
    fetch_weather response = none ∨
    ∃ j, fetch_weather response = some j ∧
      (isErrorOnlyDict j = true ∨
       (objHasKey j "current" = true ∧ objHasKey j "location" = true)) := by
  rcases h with ⟨e, rfl⟩ | ⟨fs, rfl⟩
  · exact Or.inr ⟨Json.jobj [("error", Json.jstr e)], rfl, Or.inl rfl⟩
  · rw [fetch_weather_obj]
    by_cases hc : objHasKey (Json.jobj fs) "current" = true
    · by_cases hl : objHasKey (Json.jobj fs) "location" = true
      · rw [hc, hl]
        exact Or.inr ⟨Json.jobj fs, rfl, Or.inr ⟨hc, hl⟩⟩
      · left
        simp [Bool.eq_false_iff.mpr hl]
    · left
      simp [Bool.eq_false_iff.mpr hc]

/-- Claim C4, witness: an exception with message `HTTPError: 401` yields the
error-only dict shape. -/
theorem c4_result_shape_witness :
    fetch_weather (Except.error "HTTPError: 401") = none ∨
    ∃ j, fetch_weather (Except.error "HTTPError: 401") = some j ∧
      (isErrorOnlyDict j = true ∨
       (objHasKey j "current" = true ∧ objHasKey j "location" = true)) :=
  c4_result_shape (Except.error "HTTPError: 401") (Or.inl ⟨"HTTPError: 401", rfl⟩)

/-- Claim C2, counterexample: the `ChatGoogleGenerativeAI(...)` constructor call sits
outside the `try` block, so when it raises (e.g. a pydantic validation error) the
exception propagates past `get_attractions_md`'s boundary instead of being converted
into a user-facing string — the claim as stated fails. -/
theorem c2_counterexample :
    get_attractions_md true (Except.error "ValidationError: invalid Google API key")
        (fun _ => Except.ok (some "**Louvre** — great in sunshine"))
        "Paris" "Sunny" "key"
      = Except.error "ValidationError: invalid Google API key" := rfl

/-- Claim C2 (amended): with the capability flag true, whenever the client
construction succeeds, `get_attractions_md` returns a string for every invocation
outcome (success, empty content, or any raised exception, which it converts into a
user-facing error string); only a failure of the constructor itself can propagate. -/
theorem c2_no_raise_after_construction
    (invokeContent : String → Except String (Option String))
    (city weather_summary google_key : String) :
    exceptIsOk (get_attractions_md true (Except.ok ()) invokeContent
      city weather_summary google_key) = true := by
  unfold get_attractions_md
  cases h : invokeContent (mkPrompt city weather_summary) with
  | error e => simp [h, exceptIsOk]
  | ok content => cases content <;> simp [h, exceptIsOk]

/-- Claim C3: on the spec's concrete Paris payload the summary is exactly the
specified sentence, and in general `build_weather_summary` is the pure fixed-template
sentence over location, condition, temperature with feels-like, wind and humidity. -/
theorem c3_summary_template :
    build_weather_summary parisPayload =
      Except.ok "Location: Paris, France. Condition: Sunny. Temp: 22.5°C (feels 21.0°C). Wind: 10 kph. Humidity: 40%." ∧
    ∀ nm ct cond t fl w h : Json,
      build_weather_summary (mkWeatherPayload nm ct cond t fl w h) =
        Except.ok ("Location: " ++ pyStr nm ++ ", " ++ pyStr ct ++ ". Condition: " ++
          pyStr cond ++ ". Temp: " ++ pyStr t ++ "°C (feels " ++ pyStr fl ++
          "°C). Wind: " ++ pyStr w ++ " kph. Humidity: " ++ pyStr h ++ "%.") :=
  ⟨rfl, fun _ _ _ _ _ _ _ => rfl⟩

/-- Claim C5: starting from a cold cache, the first `getOrFetch` invokes the fetch
function; a second call for the same `(city, key)` at most 300 seconds later does not
invoke it again and returns the stored result (error results included, since the
stored value is returned whatever it is); a call more than 300 seconds after the entry
was created invokes the fetch function again. -/
theorem c5_cache_ttl (t1 t2 : Nat) (city key : String)
    (fn : String → String → Option Json) :
    (getOrFetch [] t1 city key fn).2.2 = true ∧
    (t2 - t1 ≤ CACHE_TTL →
      (getOrFetch (getOrFetch [] t1 city key fn).2.1 t2 city key fn).2.2 = false ∧
      (getOrFetch (getOrFetch [] t1 city key fn).2.1 t2 city key fn).1 =
        (getOrFetch [] t1 city key fn).1) ∧
    (CACHE_TTL < t2 - t1 →
      (getOrFetch (getOrFetch [] t1 city key fn).2.1 t2 city key fn).2.2 = true) := by
  refine ⟨rfl, fun h => ?_, fun h => ?_⟩
  · constructor <;> simp [getOrFetch, cacheLookup, h]
  · simp [getOrFetch, cacheLookup, Nat.not_le.mpr h]

/-- Claim C5, witness: with `t1 = 0`, a re-fetch at `t2 = 100` (within the TTL) does
not invoke the fetch function. -/
theorem c5_cache_ttl_witness :
    (getOrFetch (getOrFetch [] 0 "Paris" "wk" (fun _ _ => none)).2.1
      100 "Paris" "wk" (fun _ _ => none)).2.2 = false :=
  ((c5_cache_ttl 0 100 "Paris" "wk" (fun _ _ => none)).2.1 (by decide)).1

/-- Claim C6: when the capability flag (`LLM_AVAILABLE`) is false,
`get_attractions_md` returns the fixed instructional string for every input and every
oracle — in particular its value does not depend on the client-construction or
invocation oracles, so no client is constructed and no network call is attempted. -/
theorem c6_unavailable_short_circuits (construct : Except String Unit)
    (invokeContent : String → Except String (Option String))
    (city weather_summary google_key : String) :
    get_attractions_md false construct invokeContent city weather_summary google_key =
      Except.ok geminiUnavailableMsg := rfl

/-- Claim C9: when the capability flag is true, the client constructs, and the model
call succeeds with absent (`None`) or empty content, `get_attractions_md` returns the
literal fallback string `No response.` rather than an empty string. -/
theorem c9_empty_content_fallback (city weather_summary google_key : String) :
    get_attractions_md true (Except.ok ()) (fun _ => Except.ok none)
      city weather_summary google_key = Except.ok "No response." ∧
    get_attractions_md true (Except.ok ()) (fun _ => Except.ok (some ""))
      city weather_summary google_key = Except.ok "No response." :=
  ⟨rfl, rfl⟩

/-- Claim C7: in every pipeline run in which a required credential is missing (strips
to empty) or the weather fetch fails (returns `None` or an error-field result), the
run halts before the subsequent steps: `build_weather_summary` is never invoked on an
error result, the advisory call is never attempted, and the run does not complete. -/
theorem c7_failure_halts_pipeline (google_key weather_key city : String)
    (response : Except String Json) (avail : Bool) (construct : Except String Unit)
    (invokeContent : String → Except String (Option String))
    (h : pyStrip google_key = "" ∨ pyStrip weather_key = "" ∨
         fetch_weather response = none ∨
         ∃ e, fetch_weather response = some (Json.jobj [("error", Json.jstr e)])) :
    (run_action google_key weather_key city response avail construct
        invokeContent).summaryInvoked = false ∧
    (run_action google_key weather_key city response avail construct
        invokeContent).advisoryInvoked = false ∧
    (run_action google_key weather_key city response avail construct
        invokeContent).outcome ≠ Halt.completed := by
  by_cases hg : pyStrip google_key = ""
  · simp [run_action, hg]
  · by_cases hw : pyStrip weather_key = ""
    · simp [run_action, hg, hw]
    · rcases h with h | h | h | ⟨e, he⟩
      · exact absurd h hg
      · exact absurd h hw
      · simp [run_action, hg, hw, h]
      · by_cases he0 : e = ""
        · subst he0
          have hrs : run_success google_key city avail construct invokeContent
              (Json.jobj [("error", Json.jstr "")]) =
              ⟨Halt.crash "KeyError: current", true, false, false⟩ := rfl
          simp [run_action, hg, hw, he, pyTruthy, pyDictGet, pyStr, hrs]
        · simp [run_action, hg, hw, he, pyTruthy, pyDictGet, he0]

/-- Claim C7, witness: with both credentials present and a fetch that failed with an
exception (`ConnectionError: dns`), the summary and advisory steps are skipped and the
run does not complete. -/
theorem c7_failure_halts_pipeline_witness :
    (run_action "gk" "wk" "Paris" (Except.error "ConnectionError: dns") true
        (Except.ok ()) (fun _ => Except.ok none)).summaryInvoked = false ∧
    (run_action "gk" "wk" "Paris" (Except.error "ConnectionError: dns") true
        (Except.ok ()) (fun _ => Except.ok none)).advisoryInvoked = false ∧
    (run_action "gk" "wk" "Paris" (Except.error "ConnectionError: dns") true
        (Except.ok ()) (fun _ => Except.ok none)).outcome ≠ Halt.completed :=
  c7_failure_halts_pipeline "gk" "wk" "Paris" (Except.error "ConnectionError: dns")
    true (Except.ok ()) (fun _ => Except.ok none)
    (Or.inr (Or.inr (Or.inr ⟨"ConnectionError: dns", rfl⟩)))

/-- Claim C8, counterexample: for the successful payload whose `current` object lacks
the optional `pressure_mb` field, `fetch_weather` returns the payload verbatim, in
which the absent optional field is simply absent — no "unknown" marker is placed in
the result, so the claim as stated fails. -/
theorem c8_counterexample :
    fetch_weather (Except.ok payloadNoOptional) = some payloadNoOptional ∧
    objHasKey currentNoOptional "pressure_mb" = false :=
  ⟨rfl, rfl⟩

/-- Claim C8 (amended): `fetch_weather` returns a successful payload verbatim (every
field the provider supplied is preserved, nothing is added); the explicit `—` markers
for absent optional fields are produced by the rendering layer (the pressure metric
and the weather-details line substitute `—` via `dict.get` defaults), not stored in
the result. -/
theorem c8_verbatim_result_markers_at_render (fs curFields : List (String × Json))
    (hc : objHasKey (Json.jobj fs) "current" = true)
    (hl : objHasKey (Json.jobj fs) "location" = true)
    (hp : objHasKey (Json.jobj curFields) "pressure_mb" = false)
    (hcl : objHasKey (Json.jobj curFields) "cloud" = false)
    (huv : objHasKey (Json.jobj curFields) "uv" = false)
    (hvis : objHasKey (Json.jobj curFields) "vis_km" = false)
    (hwd : objHasKey (Json.jobj curFields) "wind_dir" = false) :
    fetch_weather (Except.ok (Json.jobj fs)) = some (Json.jobj fs) ∧
    pressureMetric (Json.jobj curFields) = Except.ok "— mb" ∧
    detailsLine (Json.jobj curFields) =
      Except.ok "**Cloud**: —%  |  **UV**: —  |  **Visibility**: — km  |  **Wind dir**: —" := by
  simp only [objHasKey] at hp hcl huv hvis hwd
  refine ⟨?_, ?_, ?_⟩
  · rw [fetch_weather_obj, hc, hl]
    rfl
  · simp only [pressureMetric, pyGetDefault, pyDictGet,
      find_none_of_any_false _ _ hp]
    rfl
  · simp only [detailsLine, pyGetDefault, pyDictGet,
      find_none_of_any_false _ _ hp, find_none_of_any_false _ _ hcl,
      find_none_of_any_false _ _ huv, find_none_of_any_false _ _ hvis,
      find_none_of_any_false _ _ hwd]
    rfl

/-- Claim C8, witness: a minimal successful payload with an empty `current` object is
returned verbatim and every optional field renders as the `—` marker. -/
theorem c8_verbatim_result_markers_at_render_witness :
    fetch_weather (Except.ok (Json.jobj [("current", Json.jnull), ("location", Json.jnull)])) =
      some (Json.jobj [("current", Json.jnull), ("location", Json.jnull)]) ∧
    pressureMetric (Json.jobj []) = Except.ok "— mb" ∧
    detailsLine (Json.jobj []) =
      Except.ok "**Cloud**: —%  |  **UV**: —  |  **Visibility**: — km  |  **Wind dir**: —" :=
  c8_verbatim_result_markers_at_render
    [("current", Json.jnull), ("location", Json.jnull)] []
    rfl rfl rfl rfl rfl rfl rfl

/-- Claim C10: a credential consisting only of whitespace characters is treated the
same as an empty credential — the run halts with the corresponding `st.error` message
before any fetch is attempted, and the Gemini key is checked before the weather key
(a whitespace Gemini key produces the Gemini message regardless of the weather key). -/
theorem c10_whitespace_credentials (google_key weather_key city : String)
    (response : Except String Json) (avail : Bool) (construct : Except String Unit)
    (invokeContent : String → Except String (Option String)) :
    (google_key.toList.all pyIsSpace = true →
      run_action google_key weather_key city response avail construct invokeContent =
        ⟨Halt.errorStop "Please enter your Google Gemini API key.",
          false, false, false⟩) ∧
    (pyStrip google_key ≠ "" → weather_key.toList.all pyIsSpace = true →
      run_action google_key weather_key city response avail construct invokeContent =
        ⟨Halt.errorStop "Please enter your WeatherAPI key.",
          false, false, false⟩) := by
  constructor
  · intro h
    simp [run_action, pyStrip_all_space _ h]
  · intro hg h
    simp [run_action, hg, pyStrip_all_space _ h]

/-- Claim C10, witness: a three-space Gemini key halts the run with the Gemini-key
message, without attempting the fetch, even though the weather key is present. -/
theorem c10_whitespace_credentials_witness :
    run_action "   " "wk2" "Paris" (Except.ok Json.jnull) true (Except.ok ())
        (fun _ => Except.ok none) =
      ⟨Halt.errorStop "Please enter your Google Gemini API key.",
        false, false, false⟩ :=
  (c10_whitespace_credentials "   " "wk2" "Paris" (Except.ok Json.jnull) true
    (Except.ok ()) (fun _ => Except.ok none)).1 (by decide)

end WeatherApp
